import Mathlib

/-!
Shallow embedding of the `halt` crate: the pause/stop/resume primitive of
`src/lib.rs` (the `Halt`/`Remote` pair over a tri-state `State`), the
delegating adapters, and the worker thread of `src/worker.rs`.

The mutex holding the state is modelled as a poison flag next to the state;
the weak reference held by a `Remote` is modelled as `Option Notify` (the
result of `Weak::upgrade`). Blocking operations return `Option`: `none`
means the call blocks (never returns absent a concurrent mutation).
-/

/-- `State` from src/lib.rs: the tri-state of the `Halt` wrapper. -/
inductive State where
  | Running
  | Paused
  | Stopped
deriving DecidableEq

/-- `Invalid` from src/lib.rs: the error returned when the referenced
`Halt` is gone or the lock is poisoned. -/
structure Invalid where
deriving DecidableEq

/-- `Notify` from src/lib.rs: `Mutex<State>` plus condvar. The mutex is
modelled by its poison flag and the protected state; the condvar itself
carries no data, notifications are reported by the operations below. -/
structure Notify where
  poisoned : Bool
  state : State
deriving DecidableEq

/-- `Notify::is_paused`: lock, compare with `Paused`; a poisoned lock
yields `false` (`unwrap_or(false)`). -/
def Notify.is_paused (n : Notify) : Bool :=
  if n.poisoned then false else n.state == State.Paused

/-- `Notify::is_running`: lock, compare with `Running`; `false` on poison. -/
def Notify.is_running (n : Notify) : Bool :=
  if n.poisoned then false else n.state == State.Running

/-- `Notify::is_stopped`: lock, compare with `Stopped`; `false` on poison. -/
def Notify.is_stopped (n : Notify) : Bool :=
  if n.poisoned then false else n.state == State.Stopped

/-- A `Remote` after `Weak::upgrade`: `some` when the `Halt` is alive,
`none` when it has been dropped. -/
abbrev Remote := Option Notify

/-- Result of `Remote::set_and_notify`: the notify object afterwards (the
side effect), whether `condvar.notify_all()` ran, and the returned
`Result<(), Invalid>`. -/
structure SetOutcome where
  notify : Option Notify
  notified : Bool
  result : Except Invalid Unit

/-- `Remote::set_and_notify` from src/lib.rs lines 176-188: upgrade the
weak reference (`Err(Invalid)` if gone), lock (`Err(Invalid)` if
poisoned), compute `need_to_notify = *state == Paused && *state != new`,
write `new`, notify all waiters when needed. -/
def Remote.set_and_notify (r : Remote) (new : State) : SetOutcome :=
  match r with
  | none => ⟨none, false, Except.error ⟨⟩⟩
  | some n =>
    if n.poisoned then ⟨some n, false, Except.error ⟨⟩⟩
    else
      let need_to_notify := n.state == State.Paused && n.state != new
      ⟨some { n with state := new }, need_to_notify, Except.ok ()⟩

/-- `Remote::pause`. -/
def Remote.pause (r : Remote) : SetOutcome :=
  Remote.set_and_notify r State.Paused

/-- `Remote::resume`. -/
def Remote.resume (r : Remote) : SetOutcome :=
  Remote.set_and_notify r State.Running

/-- `Remote::stop`. -/
def Remote.stop (r : Remote) : SetOutcome :=
  Remote.set_and_notify r State.Stopped

/-- `Remote::is_paused`: upgrade, delegate, default `false`. -/
def Remote.is_paused (r : Remote) : Bool :=
  (r.map Notify.is_paused).getD false

/-- `Remote::is_running`: upgrade, delegate, default `false`. -/
def Remote.is_running (r : Remote) : Bool :=
  (r.map Notify.is_running).getD false

/-- `Remote.is_stopped`: upgrade, delegate, default `false`. -/
def Remote.is_stopped (r : Remote) : Bool :=
  (r.map Notify.is_stopped).getD false

/-- `Halt::is_paused` delegates to `Notify::is_paused` on the owned state. -/
def Halt.is_paused (n : Notify) : Bool := Notify.is_paused n

/-- `Halt::is_running` delegates to `Notify::is_running`. -/
def Halt.is_running (n : Notify) : Bool := Notify.is_running n

/-- `Halt::is_stopped` delegates to `Notify::is_stopped`. -/
def Halt.is_stopped (n : Notify) : Bool := Notify.is_stopped n

/-- `Halt::wait_if_paused` from src/lib.rs lines 257-264, in a run without
concurrent mutators: a poisoned lock yields `Err(Invalid)` immediately;
while the state is `Paused` the call waits on the condvar, so absent a
mutation it never returns (`none`); otherwise it returns `Ok(())`. -/
def Halt.wait_if_paused (n : Notify) : Option (Except Invalid Unit) :=
  if n.poisoned then some (Except.error ⟨⟩)
  else if n.state == State.Paused then none
  else some (Except.ok ())

/-- `Iterator::next` for `Halt<I>` (src/lib.rs lines 288-300): run
`wait_if_paused` ignoring its result, then return `None` if stopped, else
delegate. `inner` is what the wrapped iterator would yield; `none` as the
overall result means the call blocks in the wait. -/
def Halt.next (n : Notify) (inner : Option α) : Option (Option α) :=
  match Halt.wait_if_paused n with
  | none => none
  | some _ => some (if Halt.is_stopped n then none else inner)

/-- `DoubleEndedIterator::next_back` for `Halt<I>` (src/lib.rs 302-312):
same gating as `next`, delegating to the inner `next_back`. -/
def Halt.next_back (n : Notify) (inner : Option α) : Option (Option α) :=
  match Halt.wait_if_paused n with
  | none => none
  | some _ => some (if Halt.is_stopped n then none else inner)

/-- `Read::read` for `Halt<R>` (src/lib.rs 321-331): wait, then `Ok(0)` if
stopped, else delegate to the inner reader (its result is `inner`). -/
def Halt.read (n : Notify) (inner : Except ε Nat) : Option (Except ε Nat) :=
  match Halt.wait_if_paused n with
  | none => none
  | some _ => some (if Halt.is_stopped n then Except.ok 0 else inner)

/-- `Write::write` for `Halt<W>` (src/lib.rs 335-342): wait, then `Ok(0)`
if stopped, else delegate to the inner writer. -/
def Halt.write (n : Notify) (inner : Except ε Nat) : Option (Except ε Nat) :=
  match Halt.wait_if_paused n with
  | none => none
  | some _ => some (if Halt.is_stopped n then Except.ok 0 else inner)

/-- `Extend::extend` for `Halt<I>` (src/lib.rs 314-319): unconditional
delegation `self.inner.extend(iter)`, modelled with the inner collection
as a list extended by appending. -/
def Halt.extend (_n : Notify) (inner iter : List α) : List α :=
  inner ++ iter

/-- `Write::flush` for `Halt<W>` (src/lib.rs 344-347): unconditional
delegation to the inner writer, whose result is `inner`. -/
def Halt.flush (_n : Notify) (inner : Except ε Unit) : Except ε Unit :=
  inner

/-! ## The worker variant

`src/worker.rs` and `src/halter.rs` are written against a newer core of the
crate (a `Status` enumeration with a fourth terminal value `Done`, a
`Halt` whose `wait_while_paused` returns the lock guard, and a `Remote`
with a `done` mutator). That core is not among the source files, so those
pieces are modelled from the spec (sections 3, 4.1 and 4.4); everything
about the worker loop itself is translated from `src/worker.rs`. -/

/-- Modelled from the spec: the worker variant's `Status` enumeration —
`Running`, `Paused`, `Stopped`, plus the terminal `Done` that makes the
worker thread exit permanently (spec section 3). -/
inductive Status where
  | Running
  | Paused
  | Stopped
  | Done
deriving DecidableEq

/-- `Extend::extend` for `Halter<I>` (src/halter.rs 51-55): unconditional
delegation, regardless of the status of the contained `Halt`. -/
def Halter.extend (_st : Status) (inner iter : List α) : List α :=
  inner ++ iter

/-- Modelled from the spec: `Halt::wait_while_paused` of the worker
variant, in a run without concurrent mutators — while the status is
`Paused` the call blocks on the condvar (`none`); otherwise it returns
the lock guard, which holds exactly the current status (spec section
4.1). -/
def wait_while_paused (st : Status) : Option Status :=
  if st == Status.Paused then none else some st

/-- The control state of the worker's execution thread
(src/worker.rs lines 37-54): blocked in `receiver.recv()`; holding a
dequeued task about to be gated; blocked in `wait_while_paused` on the
condvar (`woken` records whether a `notify_all` has arrived); or exited. -/
inductive ThreadState (τ : Type) where
  | recv
  | gate (task : τ)
  | waiting (task : τ) (woken : Bool)
  | exited
deriving DecidableEq

/-- The worker system: the shared status, the task queue of the mpsc
channel, whether the sending half (owned by the `Worker` struct) is still
alive, the execution thread's control state, and the log of executed
tasks. -/
structure Sys (τ : Type) where
  status : Status
  queue : List τ
  senderAlive : Bool
  thread : ThreadState τ
  executed : List τ
deriving DecidableEq

/-- The gated decision of the worker loop, taken with the lock guard `g`
of `wait_while_paused` in hand (src/worker.rs lines 40-52): `Paused` →
block on the condvar; `*g == Stopped` → skip the task, `continue`;
`*g == Done` → `return`, exiting the thread; otherwise run the task and
loop back to `recv`. -/
def gateCheck (s : Sys τ) (t : τ) : Sys τ :=
  if s.status == Status.Paused then { s with thread := ThreadState.waiting t false }
  else if s.status == Status.Stopped then { s with thread := ThreadState.recv }
  else if s.status == Status.Done then { s with thread := ThreadState.exited }
  else { s with thread := ThreadState.recv, executed := s.executed ++ [t] }

/-- One atomic step of the execution thread of src/worker.rs lines 37-54.
`recv` returns a task when the queue is non-empty and fails (ending the
`while let` loop) when the queue is empty and the sender is gone; a thread
blocked in `recv` on an empty live channel, or in the condvar wait without
a notification, takes no step. A woken waiter re-checks the status under
the reacquired lock: `Paused` again → back to waiting, otherwise it
proceeds with the guard exactly as `gateCheck`. -/
def threadStep (s : Sys τ) : Sys τ :=
  match s.thread with
  | ThreadState.recv =>
    match s.queue with
    | [] => if s.senderAlive then s else { s with thread := ThreadState.exited }
    | t :: q => { s with thread := ThreadState.gate t, queue := q }
  | ThreadState.gate t => gateCheck s t
  | ThreadState.waiting t woken =>
    if woken then
      if s.status == Status.Paused then { s with thread := ThreadState.waiting t false }
      else gateCheck s t
    else s
  | ThreadState.exited => s

/-- Run `k` thread steps. -/
def threadRun (s : Sys τ) : Nat → Sys τ
  | 0 => s
  | k + 1 => threadRun (threadStep s) k

/-- `condvar.notify_all()`: every thread blocked in the condvar wait is
woken. -/
def wake (s : Sys τ) : Sys τ :=
  match s.thread with
  | ThreadState.waiting t _ => { s with thread := ThreadState.waiting t true }
  | _ => s

/-- Modelled from the spec: the worker variant's notifying setter — under
the lock, write the new status; if the previous status was `Paused` and
the new one differs, wake all waiters; otherwise do not signal (spec
section 4.1). -/
def Remote.set (s : Sys τ) (new : Status) : Sys τ :=
  let need := s.status == Status.Paused && new != s.status
  let s' := { s with status := new }
  if need then wake s' else s'

/-- Modelled from the spec: `Remote::done`, the terminal transition routed
through the same notifying setter as pause/resume/stop (spec sections 4.4
and 9). -/
def Remote.done (s : Sys τ) : Sys τ :=
  Remote.set s Status.Done

/-- `Drop for Worker` (src/worker.rs lines 17-22): `self.remote.done()`;
the `sender` field is dropped right after, closing the channel. -/
def Worker.drop (s : Sys τ) : Sys τ :=
  { Remote.done s with senderAlive := false }

/-- `SendError` of `std::sync::mpsc`, returned when the receiving half of
the channel is gone. -/
structure SendError where
deriving DecidableEq

/-- `self.sender.send(task)` inside `Worker::run` (src/worker.rs line 78):
the receiver lives in the thread closure and is dropped when the thread
function returns, so sending fails exactly when the thread has exited;
otherwise the task is appended to the queue without running anything. -/
def Worker.run_send (s : Sys τ) (t : τ) : Except SendError (Sys τ) :=
  match s.thread with
  | ThreadState.exited => Except.error ⟨⟩
  | _ => Except.ok { s with queue := s.queue ++ [t] }

/-- `std::sync::mpsc::sync_channel(1)`: the single-slot result channel of
`Worker::run`, modelled by its buffer and capacity. -/
structure SyncChannel (α : Type) where
  buf : List α
  cap : Nat
deriving DecidableEq

/-- Bounded-channel send: succeeds immediately while the buffer has room
(the result channel has capacity 1 and a fresh empty buffer, so the
worker's single send never blocks). -/
def SyncChannel.send (c : SyncChannel α) (x : α) : Option (SyncChannel α) :=
  if c.buf.length < c.cap then some { c with buf := c.buf ++ [x] } else none

/-- Receiving from the channel yields the first buffered value. -/
def SyncChannel.recv (c : SyncChannel α) : Option (α × SyncChannel α) :=
  match c.buf with
  | [] => none
  | x :: r => some (x, { c with buf := r })

/-- The fresh result channel `mpsc::sync_channel(1)` made by `Worker::run`
(src/worker.rs line 71). -/
def freshResultChannel (α : Type) : SyncChannel α :=
  ⟨[], 1⟩

/-- The wrapped task built by `Worker::run` (src/worker.rs lines 73-76):
`let x = f(); sender.send(x).ok();` — compute the closure's value, send it
into the result channel, discard a send failure. -/
def wrappedTask (f : Unit → α) (c : SyncChannel α) : SyncChannel α :=
  match c.send (f ()) with
  | some c' => c'
  | none => c

/-- The invariant making the condvar protocol sound: a thread blocked in
the wait without a pending notification only ever exists while the status
is `Paused` (it entered the wait under the lock after reading `Paused`,
and every transition out of `Paused` wakes it). -/
def waitInv (s : Sys τ) : Bool :=
  match s.thread with
  | ThreadState.waiting _ false => s.status == Status.Paused
  | _ => true

/-! ## Claims about src/lib.rs -/

/-- C1: for every mutator call on a live `Halt` with a healthy lock,
`set_and_notify` writes the requested status under the lock, returns
`Ok(())`, and signals the condvar waiters if and only if the previous
status was `Paused` and the new status differs from `Paused`; in
particular `resume` while already `Running` and `stop` while already
`Stopped` notify nobody but still leave the status set to the request. -/
theorem C1_set_and_notify_live (n : Notify) (new : State) (h : n.poisoned = false) :
    (Remote.set_and_notify (some n) new).notify = some { n with state := new } ∧
    (Remote.set_and_notify (some n) new).result = Except.ok () ∧
    ((Remote.set_and_notify (some n) new).notified = true ↔
      (n.state = State.Paused ∧ new ≠ State.Paused)) ∧
    (n.state = State.Running →
      (Remote.resume (some n)).notified = false ∧
        (Remote.resume (some n)).notify = some n) ∧
    (n.state = State.Stopped →
      (Remote.stop (some n)).notified = false ∧
        (Remote.stop (some n)).notify = some n) := by
  obtain ⟨p, st⟩ := n
  subst h
  cases st <;> cases new <;>
    simp [Remote.set_and_notify, Remote.resume, Remote.stop]

/-- Witness for C1 at a paused, healthy state resumed to `Running`. -/
theorem C1_set_and_notify_live_witness :
    (⟨false, State.Paused⟩ : Notify).poisoned = false ∧
      ((Remote.set_and_notify (some ⟨false, State.Paused⟩) State.Running).notified = true ↔
        ((⟨false, State.Paused⟩ : Notify).state = State.Paused ∧
          State.Running ≠ State.Paused)) :=
  ⟨rfl, (C1_set_and_notify_live ⟨false, State.Paused⟩ State.Running rfl).2.2.1⟩

/-- C3: once the `Halt` is dropped the weak reference no longer upgrades,
so every mutator returns `Err(Invalid)` with no side effect and no
notification, and every predicate returns `false`. -/
theorem C3_dangling_remote :
    (Remote.pause none).result = Except.error ⟨⟩ ∧
    (Remote.pause none).notify = none ∧ (Remote.pause none).notified = false ∧
    (Remote.resume none).result = Except.error ⟨⟩ ∧
    (Remote.resume none).notify = none ∧ (Remote.resume none).notified = false ∧
    (Remote.stop none).result = Except.error ⟨⟩ ∧
    (Remote.stop none).notify = none ∧ (Remote.stop none).notified = false ∧
    Remote.is_paused none = false ∧
    Remote.is_running none = false ∧
    Remote.is_stopped none = false :=
  ⟨rfl, rfl, rfl, rfl, rfl, rfl, rfl, rfl, rfl, rfl, rfl, rfl⟩

/-- C8: with a poisoned lock every status predicate — on `Notify`, on
`Halt`, and through a live `Remote` — returns `false`, and every mutator
returns `Err(Invalid)` leaving the state untouched and notifying nobody. -/
theorem C8_poisoned_lock (n : Notify) (h : n.poisoned = true) (new : State) :
    Notify.is_paused n = false ∧ Notify.is_running n = false ∧
    Notify.is_stopped n = false ∧
    Halt.is_paused n = false ∧ Halt.is_running n = false ∧
    Halt.is_stopped n = false ∧
    Remote.is_paused (some n) = false ∧ Remote.is_running (some n) = false ∧
    Remote.is_stopped (some n) = false ∧
    (Remote.set_and_notify (some n) new).result = Except.error ⟨⟩ ∧
    (Remote.set_and_notify (some n) new).notify = some n ∧
    (Remote.set_and_notify (some n) new).notified = false := by
  simp [Notify.is_paused, Notify.is_running, Notify.is_stopped, Halt.is_paused,
    Halt.is_running, Halt.is_stopped, Remote.is_paused, Remote.is_running,
    Remote.is_stopped, Remote.set_and_notify, h]

/-- Witness for C8 at a poisoned lock around `Paused`. -/
theorem C8_poisoned_lock_witness :
    (⟨true, State.Paused⟩ : Notify).poisoned = true ∧
      Notify.is_paused ⟨true, State.Paused⟩ = false :=
  ⟨rfl, (C8_poisoned_lock ⟨true, State.Paused⟩ rfl State.Running).1⟩

/-- C9, counterexample: a poisoned lock is not treated as the `Stopped`
state — `is_stopped` reports `false`, and the gated `next` call does not
short-circuit but delegates to the inner iterator. -/
theorem C9_poisoned_not_stopped_counterexample :
    Notify.is_stopped ⟨true, State.Running⟩ = false ∧
      Halt.next (⟨true, State.Running⟩ : Notify) (some 5) = some (some 5) :=
  ⟨rfl, rfl⟩

/-- C9, amended: with a poisoned lock every status query reports `false`
(the system is not reported as stopped), the wait step returns immediately
with `Err(Invalid)` so gated work never hangs, the gated call then
delegates to the inner object rather than short-circuiting, and mutation
attempts report the local `Invalid` error. -/
theorem C9_poisoned_query_amended (n : Notify) (h : n.poisoned = true)
    (inner : Option α) (new : State) :
    Notify.is_stopped n = false ∧ Notify.is_running n = false ∧
    Notify.is_paused n = false ∧
    Halt.wait_if_paused n = some (Except.error ⟨⟩) ∧
    Halt.next n inner = some inner ∧
    (Remote.set_and_notify (some n) new).result = Except.error ⟨⟩ := by
  simp [Notify.is_stopped, Notify.is_running, Notify.is_paused,
    Halt.wait_if_paused, Halt.next, Halt.is_stopped, Remote.set_and_notify, h]

/-- Witness for C9's amended claim at a poisoned lock around `Running`. -/
theorem C9_poisoned_query_amended_witness :
    (⟨true, State.Running⟩ : Notify).poisoned = true ∧
      Halt.next (⟨true, State.Running⟩ : Notify) (some 7) = some (some 7) :=
  ⟨rfl, (C9_poisoned_query_amended ⟨true, State.Running⟩ rfl (some 7)
    State.Running).2.2.2.2.1⟩

/-- C6: each gated adapter call runs the wait step first — while healthy
and `Paused` the call blocks — and once the wait returns it checks
`is_stopped`: if stopped the result is `None` / `Ok(0)` independent of the
inner object, otherwise the call delegates to the inner object. -/
theorem C6_adapters_gate (n : Notify) (a b : Option α) (r w : Except ε Nat) :
    (n.poisoned = false → n.state = State.Paused →
      Halt.next n a = none ∧ Halt.next_back n b = none ∧
        Halt.read n r = none ∧ Halt.write n w = none) ∧
    (Halt.is_stopped n = true →
      Halt.next n a = some none ∧ Halt.next_back n b = some none ∧
        Halt.read n r = some (Except.ok 0) ∧
        Halt.write n w = some (Except.ok 0)) ∧
    (Halt.wait_if_paused n ≠ none → Halt.is_stopped n = false →
      Halt.next n a = some a ∧ Halt.next_back n b = some b ∧
        Halt.read n r = some r ∧ Halt.write n w = some w) := by
  obtain ⟨p, st⟩ := n
  cases p <;> cases st <;>
    simp [Halt.next, Halt.next_back, Halt.read, Halt.write,
      Halt.wait_if_paused, Halt.is_stopped, Notify.is_stopped]

/-- Witness for C6: a stopped wrapper short-circuits, a running one
delegates, a paused one blocks. -/
theorem C6_adapters_gate_witness :
    (Halt.is_stopped ⟨false, State.Stopped⟩ = true ∧
      Halt.next (⟨false, State.Stopped⟩ : Notify) (some 7) = some none) ∧
    (Halt.wait_if_paused (⟨false, State.Running⟩ : Notify) ≠ none ∧
      Halt.read (⟨false, State.Running⟩ : Notify)
        (Except.ok (ε := Unit) 3) = some (Except.ok 3)) ∧
    Halt.next (⟨false, State.Paused⟩ : Notify) (some 7) = none :=
  ⟨⟨rfl, ((C6_adapters_gate ⟨false, State.Stopped⟩ (some 7) (some 7)
      (Except.ok (ε := Unit) 3) (Except.ok 3)).2.1 rfl).1⟩,
   ⟨by simp [Halt.wait_if_paused],
    ((C6_adapters_gate ⟨false, State.Running⟩ (some 7) (some 7)
      (Except.ok (ε := Unit) 3) (Except.ok 3)).2.2
        (by simp [Halt.wait_if_paused]) rfl).2.2.1⟩,
   ((C6_adapters_gate ⟨false, State.Paused⟩ (some 7) (some 7)
      (Except.ok (ε := Unit) 3) (Except.ok 3)).1 rfl rfl).1⟩

/-- C10: `extend` and `flush` on the wrappers delegate unconditionally —
for every status, paused, stopped or poisoned included, `extend` still
inserts the items into the inner collection and `flush` still flushes the
inner writer; neither waits nor checks `is_stopped`. -/
theorem C10_extend_flush_unconditional (n : Notify) (st : Status)
    (inner iter : List α) (fl : Except ε Unit) :
    Halt.extend n inner iter = inner ++ iter ∧
    Halt.flush n fl = fl ∧
    Halter.extend st inner iter = inner ++ iter :=
  ⟨rfl, rfl, rfl⟩

/-! ## Claims about src/worker.rs and the worker-variant core -/

/-- `Worker::new` (src/worker.rs lines 32-61): fresh channel, fresh halt
with initial status `Running` (spec section 3), thread parked in `recv`. -/
def Worker.new (τ : Type) : Sys τ :=
  ⟨Status.Running, [], true, ThreadState.recv, []⟩

/-- An exited thread takes no further step. -/
theorem threadStep_exited (s : Sys τ) (h : s.thread = ThreadState.exited) :
    threadStep s = s := by
  obtain ⟨st, q, sa, th, ex⟩ := s
  simp only at h
  subst h
  rfl

/-- An exited thread stays exited and changes nothing, forever. -/
theorem threadRun_exited (k : Nat) (s : Sys τ) (h : s.thread = ThreadState.exited) :
    threadRun s k = s := by
  induction k generalizing s with
  | zero => rfl
  | succ k ih =>
    rw [threadRun, threadStep_exited s h]
    exact ih s h

/-- The wait invariant holds at `Worker::new`. -/
theorem waitInv_new (τ : Type) : waitInv (Worker.new τ) = true := rfl

/-- The wait invariant is preserved by every thread step. -/
theorem waitInv_threadStep (s : Sys τ) (h : waitInv s = true) :
    waitInv (threadStep s) = true := by
  obtain ⟨st, q, sa, th, ex⟩ := s
  cases th with
  | recv =>
    cases q <;> cases sa <;> simp [threadStep, waitInv]
  | gate t =>
    simp only [waitInv] at h
    cases st <;> simp [threadStep, gateCheck, waitInv]
  | waiting t woken =>
    cases woken with
    | false => simpa [threadStep] using h
    | true => cases st <;> simp [threadStep, gateCheck, waitInv]
  | exited => simpa [threadStep] using h

/-- The wait invariant is preserved by the notifying setter: every
transition out of `Paused` wakes the waiter, and a transition that keeps
`Paused` leaves the un-notified waiter with a `Paused` status. -/
theorem waitInv_set (s : Sys τ) (new : Status) (h : waitInv s = true) :
    waitInv (Remote.set s new) = true := by
  obtain ⟨st, q, sa, th, ex⟩ := s
  cases th with
  | waiting t woken =>
    cases woken <;> cases st <;> cases new <;>
      simp_all [Remote.set, wake, waitInv]
  | recv => cases st <;> cases new <;> simp_all [Remote.set, wake, waitInv]
  | gate t => cases st <;> cases new <;> simp_all [Remote.set, wake, waitInv]
  | exited => cases st <;> cases new <;> simp_all [Remote.set, wake, waitInv]

/-- The wait invariant is preserved by dropping the `Worker`. -/
theorem waitInv_drop (s : Sys τ) (h : waitInv s = true) :
    waitInv (Worker.drop s) = true := by
  have h2 := waitInv_set s Status.Done h
  obtain ⟨st, q, sa, th, ex⟩ := Remote.set s Status.Done
  cases th <;> simp_all [Worker.drop, Remote.done, waitInv]

/-- C2: dropping the `Worker` signals the terminal `Done` status through
the remote and closes the channel; under the wait invariant this wakes the
thread even if it is blocked in the paused wait, so the execution thread
always exits — within three steps of its own. -/
theorem C2_drop_always_exits (s : Sys τ) (h : waitInv s = true) :
    (threadRun (Worker.drop s) 3).thread = ThreadState.exited := by
  obtain ⟨st, q, sa, th, ex⟩ := s
  cases th with
  | recv =>
    cases q <;>
      simp [Worker.drop, Remote.done, Remote.set, wake, threadRun, threadStep,
        gateCheck]
  | gate t =>
    simp [Worker.drop, Remote.done, Remote.set, wake, threadRun, threadStep,
      gateCheck]
  | waiting t woken =>
    cases woken <;> cases st <;>
      simp_all [Worker.drop, Remote.done, Remote.set, wake, threadRun,
        threadStep, gateCheck, waitInv]
  | exited =>
    simp [Worker.drop, Remote.done, Remote.set, wake, threadRun, threadStep]

/-- Witness for C2: a worker paused with its thread parked in the condvar
wait exits after the drop. -/
theorem C2_drop_always_exits_witness :
    waitInv (⟨Status.Paused, [], true, ThreadState.waiting 0 false, []⟩ : Sys Nat) = true ∧
      (threadRun (Worker.drop
        (⟨Status.Paused, [], true, ThreadState.waiting 0 false, []⟩ : Sys Nat)) 3).thread =
        ThreadState.exited :=
  ⟨rfl, C2_drop_always_exits
    (⟨Status.Paused, [], true, ThreadState.waiting 0 false, []⟩ : Sys Nat) rfl⟩

/-- C4: for every dequeued task the thread first waits while paused, then
decides from the guard's status: `Stopped` discards the task and loops to
the next; `Done` exits permanently, with the task, the queue and the
executed log frozen forever after; otherwise the task is executed and the
loop continues. -/
theorem C4_worker_loop_gate (s : Sys τ) (t : τ) (h : s.thread = ThreadState.gate t) :
    (s.status = Status.Paused →
      threadStep s = { s with thread := ThreadState.waiting t false }) ∧
    (s.status = Status.Stopped →
      threadStep s = { s with thread := ThreadState.recv }) ∧
    (s.status = Status.Done →
      ∀ k, threadRun (threadStep s) k = { s with thread := ThreadState.exited }) ∧
    (s.status = Status.Running →
      threadStep s = { s with thread := ThreadState.recv, executed := s.executed ++ [t] }) := by
  refine ⟨?_, ?_, ?_, ?_⟩
  · intro hst; simp [threadStep, gateCheck, h, hst]
  · intro hst; simp [threadStep, gateCheck, h, hst]
  · intro hst
    have h1 : threadStep s = { s with thread := ThreadState.exited } := by
      simp [threadStep, gateCheck, h, hst]
    intro k
    rw [h1]
    exact threadRun_exited k _ rfl
  · intro hst; simp [threadStep, gateCheck, h, hst]

/-- Witness for C4: a running worker holding a dequeued task executes it
and returns to the queue. -/
theorem C4_worker_loop_gate_witness :
    (⟨Status.Running, [], true, ThreadState.gate 5, []⟩ : Sys Nat).thread =
        ThreadState.gate 5 ∧
      threadStep (⟨Status.Running, [], true, ThreadState.gate 5, []⟩ : Sys Nat) =
        ⟨Status.Running, [], true, ThreadState.recv, [5]⟩ :=
  ⟨rfl, by
    have h := (C4_worker_loop_gate
      (⟨Status.Running, [], true, ThreadState.gate 5, []⟩ : Sys Nat) 5 rfl).2.2.2 rfl
    simpa using h⟩

/-- C5: `wait_while_paused` blocks exactly while the status is `Paused`
(a thread parked in the wait without a notification takes no step), and
when it returns it returns the lock guard holding exactly the current
status, so the subsequent `Stopped`/`Done`/run decision is a function of
that guard alone — no second lock acquisition. -/
theorem C5_wait_while_paused_guard (st g : Status) (s : Sys τ) (t : τ) :
    (wait_while_paused st = none ↔ st = Status.Paused) ∧
    (wait_while_paused st = some g → g = st) ∧
    (s.thread = ThreadState.waiting t false → threadStep s = s) ∧
    (s.thread = ThreadState.gate t → wait_while_paused s.status = some g →
      threadStep s =
        if g = Status.Stopped then { s with thread := ThreadState.recv }
        else if g = Status.Done then { s with thread := ThreadState.exited }
        else { s with thread := ThreadState.recv, executed := s.executed ++ [t] }) := by
  refine ⟨?_, ?_, ?_, ?_⟩
  · cases st <;> simp [wait_while_paused]
  · cases st with
    | Paused => simp [wait_while_paused]
    | Running => intro hw; simp [wait_while_paused] at hw; subst hw; rfl
    | Stopped => intro hw; simp [wait_while_paused] at hw; subst hw; rfl
    | Done => intro hw; simp [wait_while_paused] at hw; subst hw; rfl
  · intro h; simp [threadStep, h]
  · intro h hw
    cases hst : s.status with
    | Paused => rw [hst] at hw; simp [wait_while_paused] at hw
    | Running =>
      rw [hst] at hw; simp [wait_while_paused] at hw; subst hw
      simp [threadStep, gateCheck, h, hst]
    | Stopped =>
      rw [hst] at hw; simp [wait_while_paused] at hw; subst hw
      simp [threadStep, gateCheck, h, hst]
    | Done =>
      rw [hst] at hw; simp [wait_while_paused] at hw; subst hw
      simp [threadStep, gateCheck, h, hst]

/-- Witness for C5: a thread gating a task under `Done` exits, the
decision taken from the returned guard. -/
theorem C5_wait_while_paused_guard_witness :
    (⟨Status.Done, [3], true, ThreadState.gate 7, []⟩ : Sys Nat).thread =
        ThreadState.gate 7 ∧
      wait_while_paused (⟨Status.Done, [3], true, ThreadState.gate 7, []⟩ :
        Sys Nat).status = some Status.Done ∧
      threadStep (⟨Status.Done, [3], true, ThreadState.gate 7, []⟩ : Sys Nat) =
        ⟨Status.Done, [3], true, ThreadState.exited, []⟩ :=
  ⟨rfl, rfl, (C5_wait_while_paused_guard Status.Done Status.Done
    (⟨Status.Done, [3], true, ThreadState.gate 7, []⟩ : Sys Nat) 7).2.2.2 rfl rfl⟩

/-- C7: `Worker::run` wraps the closure to forward its value into a fresh
single-slot result channel and enqueues it without running anything; it
fails with `SendError` exactly when the execution thread has exited (the
channel's receiving half is gone), and when the wrapped task is executed,
receiving on the returned channel yields exactly the closure's value —
for a task computing `21 * 2`, the received value is `42`. -/
theorem C7_run_roundtrip (s : Sys τ) (t : τ) (f : Unit → α) :
    (s.thread = ThreadState.exited → Worker.run_send s t = Except.error ⟨⟩) ∧
    (s.thread ≠ ThreadState.exited →
      Worker.run_send s t = Except.ok { s with queue := s.queue ++ [t] }) ∧
    SyncChannel.recv (wrappedTask f (freshResultChannel α)) =
      some (f (), ⟨[], 1⟩) ∧
    SyncChannel.recv (wrappedTask (fun _ => 21 * 2) (freshResultChannel Nat)) =
      some (42, ⟨[], 1⟩) := by
  refine ⟨?_, ?_, rfl, rfl⟩
  · intro h; simp [Worker.run_send, h]
  · intro h
    cases hth : s.thread with
    | exited => exact absurd hth h
    | recv => simp [Worker.run_send, hth]
    | gate t2 => simp [Worker.run_send, hth]
    | waiting t2 w => simp [Worker.run_send, hth]

/-- Witness for C7: submitting to a live worker enqueues the task;
the concrete `21 * 2` round-trip is contained in the theorem itself. -/
theorem C7_run_roundtrip_witness :
    (⟨Status.Running, [], true, ThreadState.recv, []⟩ : Sys Nat).thread ≠
        ThreadState.exited ∧
      Worker.run_send (⟨Status.Running, [], true, ThreadState.recv, []⟩ : Sys Nat) 9 =
        Except.ok ⟨Status.Running, [9], true, ThreadState.recv, []⟩ :=
  ⟨by decide, (C7_run_roundtrip
    (⟨Status.Running, [], true, ThreadState.recv, []⟩ : Sys Nat) 9
    (fun _ => (0 : Nat))).2.1 (by decide)⟩
